import Mathlib

/-!
Verification of the downtime-prediction core of the sentinel repository:
the deterministic mock risk scorer (`calculateMockProbability`), the city
risk classifier (the `CityPredictions` display logic), and the prediction
orchestrator fallback paths (`getCityPredictions`, `getSimplifiedPrediction`).

Numbers are modelled as exact rationals; the one random quantity
(`Math.random() * 0.2 - 0.1`, the jitter) is passed as an explicit
parameter, so every function is a pure function of its inputs.
-/

namespace Sentinel

/-- Input value object of the scorer (TS interface `PredictionRequest`). -/
structure PredictionRequest where
  region : String
  latency_ms : ℚ
  packet_loss : ℚ
  temperature : ℚ
  wind_speed : ℚ
  humidity : ℚ
deriving DecidableEq

/-- One contributing factor of a prediction result. -/
structure ContributingFactor where
  name : String
  impact : ℚ
deriving DecidableEq

/-- Output value object of the scorer (TS interface `PredictionResult`). -/
structure PredictionResult where
  downtime_probability : ℚ
  threshold : ℚ
  alert_triggered : Bool
  contributing_factors : List ContributingFactor
  recommendation : String
deriving DecidableEq

/-- `Math.max(0, Math.min(1, x))` — clamp to the unit interval. -/
def clamp01 (x : ℚ) : ℚ := max 0 (min 1 x)

/-- `parseFloat(x.toFixed(2))` — round to 2 decimal places. -/
def round2 (x : ℚ) : ℚ := (round (x * 100) : ℚ) / 100

/-- The raw weighted sum accumulated into `probability` by
`calculateMockProbability` before the first clamp: latency and packet-loss
terms plus the three flat environmental penalties. -/
def rawScore (v : PredictionRequest) : ℚ :=
  v.latency_ms / 1000 * (3 / 10)
    + v.packet_loss / 100 * (3 / 10)
    + (if v.temperature > 35 ∨ v.temperature < 0 then 15 / 100 else 0)
    + (if v.humidity > 90 then 1 / 10 else 0)
    + (if v.wind_speed > 20 then 15 / 100 else 0)

/-- The probability after the first clamp (`Math.max(0, Math.min(1, probability))`),
before the random jitter is added. -/
def preJitterProbability (v : PredictionRequest) : ℚ :=
  clamp01 (rawScore v)

/-- The probability after adding the jitter and clamping again.  `jitter` is
the value of `(Math.random() * 0.2) - 0.1`. -/
def postJitterProbability (v : PredictionRequest) (jitter : ℚ) : ℚ :=
  clamp01 (preJitterProbability v + jitter)

/-- Shallow embedding of `calculateMockProbability` (the mock scorer of the
`usePrediction` hook), with the random jitter as an explicit parameter. -/
def calculateMockProbability (v : PredictionRequest) (jitter : ℚ) : PredictionResult :=
  let probability := postJitterProbability v jitter
  { downtime_probability := round2 probability
    threshold := 7 / 10
    alert_triggered := decide (probability > 7 / 10)
    contributing_factors :=
      [ { name := "Network Latency", impact := 35 / 100 }
      , { name := "Packet Loss", impact := 30 / 100 }
      , { name := "Environmental Conditions", impact := 25 / 100 } ]
    recommendation := "Consider network path optimization and environmental controls." }

/-! ### Helper lemmas about clamping and rounding -/

lemma clamp01_nonneg (x : ℚ) : 0 ≤ clamp01 x := le_max_left 0 _

lemma clamp01_le_one (x : ℚ) : clamp01 x ≤ 1 :=
  max_le (by norm_num) (min_le_left 1 x)

lemma clamp01_of_mem (x : ℚ) (h0 : 0 ≤ x) (h1 : x ≤ 1) : clamp01 x = x := by
  unfold clamp01
  rw [min_eq_right h1, max_eq_right h0]

lemma roundQ_mono {x y : ℚ} (h : x ≤ y) : round x ≤ round y := by
  rw [round_eq, round_eq]
  exact Int.floor_mono (by linarith)

lemma round2_le_round2 {x y : ℚ} (h : x ≤ y) : round2 x ≤ round2 y := by
  unfold round2
  have h1 : round (x * 100) ≤ round (y * 100) := roundQ_mono (by linarith)
  have h2 : ((round (x * 100) : ℤ) : ℚ) ≤ ((round (y * 100) : ℤ) : ℚ) := by
    exact_mod_cast h1
  linarith

lemma round2_intMul {n : ℤ} : round2 ((n : ℚ) / 100) = (n : ℚ) / 100 := by
  unfold round2
  rw [div_mul_cancel₀ _ (by norm_num : (100 : ℚ) ≠ 0), round_intCast]

lemma round2_nonneg {x : ℚ} (h : 0 ≤ x) : 0 ≤ round2 x := by
  have := round2_le_round2 h
  rwa [show round2 0 = 0 by unfold round2; norm_num] at this

lemma round2_le_one {x : ℚ} (h : x ≤ 1) : round2 x ≤ 1 := by
  have h2 := round2_le_round2 h
  have : round2 1 = 1 := by unfold round2; norm_num
  linarith

lemma le_clamp01 {a x : ℚ} (ha : a ≤ 1) (h : a ≤ x) : a ≤ clamp01 x :=
  le_trans (le_min ha h) (le_max_right 0 _)

lemma clamp01_le {x a : ℚ} (ha : 0 ≤ a) (h : x ≤ a) : clamp01 x ≤ a :=
  max_le ha (le_trans (min_le_right 1 x) h)

/-- The input exhibiting the gap between the rounded probability and the
alert comparison: pre-jitter score 0.3 + 0.3 + 0.1 = 0.7, jitter 0.004. -/
def mismatchInput : PredictionRequest :=
  { region := "demo", latency_ms := 1000, packet_loss := 100
    temperature := 25, wind_speed := 5, humidity := 95 }

/-- Claim C1 (counterexample): at the input with pre-jitter probability 0.7
and jitter 0.004 (inside [-0.1, 0.1]), the unrounded probability is 0.704,
so the alert fires, yet the returned rounded `downtime_probability` is
exactly 0.70, which is not greater than the 0.7 threshold.  Hence
`alert_triggered == (downtime_probability > 0.7)` fails on the code. -/
theorem alert_neq_rounded_comparison :
    (-(1 : ℚ) / 10 ≤ 1 / 250 ∧ (1 : ℚ) / 250 ≤ 1 / 10)
    ∧ (calculateMockProbability mismatchInput (1 / 250)).alert_triggered = true
    ∧ (calculateMockProbability mismatchInput (1 / 250)).downtime_probability = 7 / 10
    ∧ ¬ ((calculateMockProbability mismatchInput (1 / 250)).downtime_probability > 7 / 10) := by
  have hpost : postJitterProbability mismatchInput (1 / 250) = 704 / 1000 := by
    norm_num [postJitterProbability, preJitterProbability, rawScore, clamp01, mismatchInput]
  refine ⟨by norm_num, ?_, ?_, ?_⟩
  · norm_num [calculateMockProbability, hpost]
  · norm_num [calculateMockProbability, hpost, round2, round_eq]
  · norm_num [calculateMockProbability, hpost, round2, round_eq]

/-- Claim C1 (amended): `alert_triggered` equals the comparison of the
UNROUNDED (clamped, post-jitter) probability against the fixed threshold
0.7; the comparison of the returned rounded `downtime_probability` against
0.7 implies the alert but is not equivalent to it (they disagree exactly
when the unrounded probability lies in (0.7, 0.705)). -/
theorem alert_matches_unrounded_probability (v : PredictionRequest) (jitter : ℚ) :
    ((calculateMockProbability v jitter).alert_triggered = true
      ↔ postJitterProbability v jitter > 7 / 10)
    ∧ ((calculateMockProbability v jitter).downtime_probability > 7 / 10
      → (calculateMockProbability v jitter).alert_triggered = true) := by
  constructor
  · simp [calculateMockProbability]
  · intro h
    simp only [calculateMockProbability, decide_eq_true_eq]
    by_contra hle
    push_neg at hle
    have h1 : round2 (postJitterProbability v jitter) ≤ round2 (7 / 10) :=
      round2_le_round2 hle
    have h2 : round2 (7 / 10) = 7 / 10 := by
      unfold round2
      norm_num [round_eq]
    simp only [calculateMockProbability] at h
    linarith

/-- Claim C3: for every input (including out-of-range field values) and
every jitter in [-0.1, 0.1], the returned `downtime_probability` lies in
[0, 1] and is an integer multiple of 1/100 (at most 2 decimal places). -/
theorem downtime_probability_unit_interval (v : PredictionRequest) (jitter : ℚ)
    (hj1 : -(1 / 10) ≤ jitter) (hj2 : jitter ≤ 1 / 10) :
    0 ≤ (calculateMockProbability v jitter).downtime_probability
    ∧ (calculateMockProbability v jitter).downtime_probability ≤ 1
    ∧ ∃ n : ℤ, (calculateMockProbability v jitter).downtime_probability = (n : ℚ) / 100 :=
  ⟨round2_nonneg (clamp01_nonneg _), round2_le_one (clamp01_le_one _),
    ⟨round (postJitterProbability v jitter * 100), rfl⟩⟩

/-- Claim C3 (witness): the bounds evaluated at a concrete input and jitter 0. -/
theorem downtime_probability_unit_interval_witness :
    0 ≤ (calculateMockProbability ⟨"kenya", 0, 0, 25, 5, 60⟩ 0).downtime_probability
    ∧ (calculateMockProbability ⟨"kenya", 0, 0, 25, 5, 60⟩ 0).downtime_probability ≤ 1
    ∧ ∃ n : ℤ, (calculateMockProbability ⟨"kenya", 0, 0, 25, 5, 60⟩ 0).downtime_probability
      = (n : ℚ) / 100 :=
  downtime_probability_unit_interval ⟨"kenya", 0, 0, 25, 5, 60⟩ 0
    (by norm_num) (by norm_num)

/-- Claim C4: `contributing_factors` is the same static ordered 3-element
sequence for every input and every jitter, and its impacts sum to 0.90. -/
theorem contributing_factors_static (v : PredictionRequest) (jitter : ℚ) :
    (calculateMockProbability v jitter).contributing_factors
      = [ { name := "Network Latency", impact := 35 / 100 }
        , { name := "Packet Loss", impact := 30 / 100 }
        , { name := "Environmental Conditions", impact := 25 / 100 } ]
    ∧ (calculateMockProbability v jitter).contributing_factors.length = 3
    ∧ ((calculateMockProbability v jitter).contributing_factors.map
        ContributingFactor.impact).sum = 90 / 100 := by
  refine ⟨rfl, rfl, ?_⟩
  norm_num [calculateMockProbability]

/-- The all-stressed input of the extreme scenario. -/
def extremeInput : PredictionRequest :=
  { region := "demo", latency_ms := 1000, packet_loss := 100
    temperature := 40, wind_speed := 25, humidity := 95 }

/-- Claim C5: for input {latency 1000, packet loss 100, temperature 40,
wind 25, humidity 95}, the raw sum is 0.3 + 0.3 + 0.15 + 0.1 + 0.15 = 1.0,
clamped to 1.0 before jitter; for every jitter in [-0.1, 0.1] the final
`downtime_probability` lies in [0.9, 1.0] and the alert is triggered. -/
theorem extreme_scenario (jitter : ℚ)
    (hj1 : -(1 / 10) ≤ jitter) (hj2 : jitter ≤ 1 / 10) :
    rawScore extremeInput = 3 / 10 + 3 / 10 + 15 / 100 + 1 / 10 + 15 / 100
    ∧ preJitterProbability extremeInput = 1
    ∧ 9 / 10 ≤ (calculateMockProbability extremeInput jitter).downtime_probability
    ∧ (calculateMockProbability extremeInput jitter).downtime_probability ≤ 1
    ∧ (calculateMockProbability extremeInput jitter).alert_triggered = true := by
  have hraw : rawScore extremeInput = 1 := by
    norm_num [rawScore, extremeInput]
  have hpre : preJitterProbability extremeInput = 1 := by
    rw [preJitterProbability, hraw, clamp01_of_mem] <;> norm_num
  have hlow : 9 / 10 ≤ postJitterProbability extremeInput jitter := by
    rw [postJitterProbability, hpre]
    exact le_clamp01 (by norm_num) (by linarith)
  have hhigh := clamp01_le_one (preJitterProbability extremeInput + jitter)
  refine ⟨by rw [hraw]; norm_num, hpre, ?_, round2_le_one hhigh, ?_⟩
  · have h90 : round2 (9 / 10) ≤ round2 (postJitterProbability extremeInput jitter) :=
      round2_le_round2 hlow
    have : round2 (9 / 10) = 9 / 10 := by
      unfold round2
      norm_num [round_eq]
    simp only [calculateMockProbability]
    linarith
  · have : postJitterProbability extremeInput jitter > 7 / 10 := by
      have := hlow
      rw [postJitterProbability, hpre] at this ⊢
      linarith
    simp [calculateMockProbability, this]

/-- Claim C5 (witness): the extreme scenario evaluated at jitter 0. -/
theorem extreme_scenario_witness :
    rawScore extremeInput = 3 / 10 + 3 / 10 + 15 / 100 + 1 / 10 + 15 / 100
    ∧ preJitterProbability extremeInput = 1
    ∧ 9 / 10 ≤ (calculateMockProbability extremeInput 0).downtime_probability
    ∧ (calculateMockProbability extremeInput 0).downtime_probability ≤ 1
    ∧ (calculateMockProbability extremeInput 0).alert_triggered = true :=
  extreme_scenario 0 (by norm_num) (by norm_num)

/-- Claim C6: with zero latency and packet loss, temperature in [0, 35],
humidity at most 90 and wind at most 20, the pre-jitter probability is
exactly 0; for every jitter in [-0.1, 0.1] the final `downtime_probability`
lies in [0, 0.1] and the alert is not triggered. -/
theorem calm_inputs_score_zero (v : PredictionRequest) (jitter : ℚ)
    (hl : v.latency_ms = 0) (hp : v.packet_loss = 0)
    (ht0 : 0 ≤ v.temperature) (ht : v.temperature ≤ 35)
    (hh : v.humidity ≤ 90) (hw : v.wind_speed ≤ 20)
    (hj1 : -(1 / 10) ≤ jitter) (hj2 : jitter ≤ 1 / 10) :
    preJitterProbability v = 0
    ∧ 0 ≤ (calculateMockProbability v jitter).downtime_probability
    ∧ (calculateMockProbability v jitter).downtime_probability ≤ 1 / 10
    ∧ (calculateMockProbability v jitter).alert_triggered = false := by
  have h1 : ¬ (v.temperature > 35) := not_lt.mpr ht
  have h2 : ¬ (v.temperature < 0) := not_lt.mpr ht0
  have h3 : ¬ (v.humidity > 90) := not_lt.mpr hh
  have h4 : ¬ (v.wind_speed > 20) := not_lt.mpr hw
  have hraw : rawScore v = 0 := by
    simp [rawScore, hl, hp, h1, h2, h3, h4]
  have hpre : preJitterProbability v = 0 := by
    rw [preJitterProbability, hraw, clamp01_of_mem] <;> norm_num
  have hpost : postJitterProbability v jitter ≤ 1 / 10 := by
    rw [postJitterProbability, hpre]
    exact clamp01_le (by norm_num) (by linarith)
  refine ⟨hpre, round2_nonneg (clamp01_nonneg _), ?_, ?_⟩
  · have h5 : round2 (postJitterProbability v jitter) ≤ round2 (1 / 10) :=
      round2_le_round2 hpost
    have h6 : round2 (1 / 10) = 1 / 10 := by
      unfold round2
      norm_num [round_eq]
    simp only [calculateMockProbability]
    linarith
  · have : ¬ (postJitterProbability v jitter > 7 / 10) := by
      push_neg
      linarith
    simp [calculateMockProbability, this]

/-- Claim C6 (witness): the calm scenario input {kenya, 0, 0, 25, 5, 60}
evaluated at jitter 0.05. -/
theorem calm_inputs_score_zero_witness :
    preJitterProbability ⟨"kenya", 0, 0, 25, 5, 60⟩ = 0
    ∧ 0 ≤ (calculateMockProbability ⟨"kenya", 0, 0, 25, 5, 60⟩ (1 / 20)).downtime_probability
    ∧ (calculateMockProbability ⟨"kenya", 0, 0, 25, 5, 60⟩ (1 / 20)).downtime_probability ≤ 1 / 10
    ∧ (calculateMockProbability ⟨"kenya", 0, 0, 25, 5, 60⟩ (1 / 20)).alert_triggered = false :=
  calm_inputs_score_zero ⟨"kenya", 0, 0, 25, 5, 60⟩ (1 / 20) rfl rfl
    (by norm_num) (by norm_num) (by norm_num) (by norm_num) (by norm_num) (by norm_num)

/-! ### City risk classifier (`CityPredictions` component) -/

/-- Risk tier of a single city (`riskLevel` in the component). -/
inductive RiskTier
  | lower
  | moderate
  | higher
deriving DecidableEq

/-- Tier classification: `probability > 0.006` is Higher Risk,
otherwise `probability > 0.004` is Moderate Risk, otherwise Lower Risk. -/
def riskTier (p : ℚ) : RiskTier :=
  if p > 6 / 1000 then .higher else if p > 4 / 1000 then .moderate else .lower

/-- Map-pin color of a city row. -/
inductive PinColor
  | amber
  | emerald
deriving DecidableEq

/-- `probability > 0.005 ? "text-amber-500" : "text-emerald-500"`. -/
def pinColor (p : ℚ) : PinColor :=
  if p > 5 / 1000 then .amber else .emerald

/-- Whether the instability-warning block is rendered for a city
(`probability > 0.005 && (...)`). -/
def instabilityWarning (p : ℚ) : Bool :=
  decide (p > 5 / 1000)

/-- One rendered city row of the `CityPredictions` component. -/
structure CityRow where
  city : String
  probability : ℚ
  percentage : ℚ
  riskLevel : RiskTier
  barFraction : ℚ
  pin : PinColor
  warning : Bool
deriving DecidableEq

/-- `Math.max(...Object.values(cityPredictions))` over a non-empty map
(association list in iteration order). -/
def maxProbability : List (String × ℚ) → ℚ
  | [] => 0
  | [x] => x.2
  | x :: y :: t => max x.2 (maxProbability (y :: t))

/-- The ordering realised by the stable `.sort((a, b) => b[1] - a[1])`:
`a` may stay before `b` exactly when the probability of `a` is at least
the probability of `b`. -/
def probDesc (a b : String × ℚ) : Prop := b.2 ≤ a.2

instance : DecidableRel probDesc := fun a b => inferInstanceAs (Decidable (b.2 ≤ a.2))

instance : IsTotal (String × ℚ) probDesc := ⟨fun a b => le_total b.2 a.2⟩

instance : IsTrans (String × ℚ) probDesc := ⟨fun _ _ _ h1 h2 => le_trans h2 h1⟩

/-- `Object.entries(cityPredictions).sort((a, b) => b[1] - a[1])`: a stable
descending sort by probability (JS `Array.prototype.sort` is stable, so the
stable `insertionSort` realises it). -/
def sortCities (m : List (String × ℚ)) : List (String × ℚ) :=
  List.insertionSort probDesc m

/-- The row rendered for one city, given the dataset maximum. -/
def cityRow (maxP : ℚ) (x : String × ℚ) : CityRow :=
  { city := x.1
    probability := x.2
    percentage := x.2 * 100
    riskLevel := riskTier x.2
    barFraction := x.2 / maxP
    pin := pinColor x.2
    warning := instabilityWarning x.2 }

/-- The classifier: the rendered row list of the `CityPredictions`
component for a city-probability map. -/
def classify (m : List (String × ℚ)) : List CityRow :=
  (sortCities m).map (cityRow (maxProbability m))

lemma le_maxProbability (m : List (String × ℚ)) (x : String × ℚ) (hx : x ∈ m) :
    x.2 ≤ maxProbability m := by
  induction m with
  | nil => cases hx
  | cons a t ih =>
    cases t with
    | nil =>
      rw [List.mem_singleton.mp hx]
      simp [maxProbability]
    | cons b u =>
      rcases List.mem_cons.mp hx with h | h
      · rw [h]
        simp [maxProbability]
      · calc x.2 ≤ maxProbability (b :: u) := ih h
          _ ≤ maxProbability (a :: b :: u) := by simp [maxProbability]

lemma maxProbability_mem (m : List (String × ℚ)) (hm : m ≠ []) :
    ∃ x ∈ m, x.2 = maxProbability m := by
  induction m with
  | nil => exact absurd rfl hm
  | cons a t ih =>
    cases t with
    | nil => exact ⟨a, List.mem_singleton_self a, by simp [maxProbability]⟩
    | cons b u =>
      rcases ih (by simp) with ⟨y, hy, hy2⟩
      rcases le_total (maxProbability (b :: u)) a.2 with h | h
      · exact ⟨a, List.mem_cons_self a _, by simp [maxProbability, max_eq_left h]⟩
      · exact ⟨y, List.mem_cons_of_mem a hy,
          by simp [maxProbability, hy2, max_eq_right h]⟩

lemma filter_orderedInsert (q : ℚ) (a : String × ℚ) (l : List (String × ℚ)) :
    (List.orderedInsert probDesc a l).filter (fun x => decide (x.2 = q))
      = ((a :: l).filter (fun x => decide (x.2 = q))) := by
  induction l with
  | nil => rfl
  | cons b t ih =>
    rw [List.orderedInsert]
    by_cases hab : probDesc a b
    · rw [if_pos hab]
    · rw [if_neg hab]
      have hlt : a.2 < b.2 := lt_of_not_le hab
      by_cases hbq : b.2 = q
      · have haq : ¬ (a.2 = q) := by
          rw [← hbq]
          exact ne_of_lt hlt
        simp [List.filter_cons, hbq, haq, ih]
      · by_cases haq : a.2 = q
        · simp [List.filter_cons, hbq, haq, ih]
        · simp [List.filter_cons, hbq, haq, ih]

lemma filter_sortCities (q : ℚ) (m : List (String × ℚ)) :
    (sortCities m).filter (fun x => decide (x.2 = q))
      = m.filter (fun x => decide (x.2 = q)) := by
  induction m with
  | nil => rfl
  | cons a t ih =>
    have ih2 : (List.insertionSort probDesc t).filter (fun x => decide (x.2 = q))
        = t.filter (fun x => decide (x.2 = q)) := ih
    rw [sortCities, List.insertionSort,
      filter_orderedInsert q a (List.insertionSort probDesc t)]
    simp only [List.filter_cons, ih2]

lemma sortCities_sorted (m : List (String × ℚ)) : List.Sorted probDesc (sortCities m) :=
  List.sorted_insertionSort probDesc m

lemma sortCities_perm (m : List (String × ℚ)) : List.Perm (sortCities m) m :=
  List.perm_insertionSort probDesc m

lemma sortCities_head_max (m : List (String × ℚ)) (hm : m ≠ []) :
    ∃ h t, sortCities m = h :: t ∧ h.2 = maxProbability m := by
  have hperm := sortCities_perm m
  have hne : sortCities m ≠ [] := by
    intro h0
    rw [h0] at hperm
    exact hm hperm.symm.eq_nil
  obtain ⟨h, t, hht⟩ := List.exists_cons_of_ne_nil hne
  refine ⟨h, t, hht, ?_⟩
  have hmem : h ∈ m := hperm.mem_iff.mp (hht ▸ List.mem_cons_self h t)
  have hle : h.2 ≤ maxProbability m := le_maxProbability m h hmem
  obtain ⟨y, hy, hy2⟩ := maxProbability_mem m hm
  have hysort : y ∈ sortCities m := hperm.mem_iff.mpr hy
  rw [hht] at hysort
  have hsorted := sortCities_sorted m
  rw [hht] at hsorted
  rcases List.mem_cons.mp hysort with hyh | hyt
  · rw [← hyh, hy2]
  · have hdesc : y.2 ≤ h.2 := (List.sorted_cons.mp hsorted).1 y hyt
    linarith [hy2 ▸ hdesc, hle]

/-- Claim C2 (counterexample): the non-empty map {"A": 0} has maximum
probability 0, so the first (only) rendered row has barFraction 0/0
(NaN in JS, 0 in the rational model) — not 1.0, refuting the claim for
every non-empty map. -/
theorem classify_zero_map_counterexample :
    ([(("A" : String), (0 : ℚ))] ≠ [])
    ∧ (∃ r t, classify [("A", (0 : ℚ))] = r :: t
        ∧ r.barFraction = 0 ∧ r.barFraction ≠ 1) := by
  refine ⟨by simp, ⟨cityRow 0 ("A", 0), [], rfl, ?_, ?_⟩⟩
  · show (0 : ℚ) / 0 = 0
    norm_num
  · show ¬ ((0 : ℚ) / 0 = 1)
    norm_num

/-- Claim C2 (amended): for every non-empty city map whose maximum
probability is nonzero, the classifier output is sorted descending by
probability, ties keep the original map iteration order (for each
probability value, the rows carrying it are exactly the map entries with
that value, in original order), and the first (top) row has barFraction 1.
(The nonzero-maximum hypothesis is forced: when every probability is 0 the
top barFraction is 0/0, not 1 — see the counterexample.) -/
theorem classify_sorted_top_bar (m : List (String × ℚ)) (hm : m ≠ [])
    (hmax : maxProbability m ≠ 0) :
    List.Pairwise (fun a b : CityRow => b.probability ≤ a.probability) (classify m)
    ∧ (∀ q : ℚ, (classify m).filter (fun r => decide (r.probability = q))
        = (m.filter (fun x => decide (x.2 = q))).map (cityRow (maxProbability m)))
    ∧ ∃ r t, classify m = r :: t ∧ r.barFraction = 1 := by
  refine ⟨?_, ?_, ?_⟩
  · exact (sortCities_sorted m).map (cityRow (maxProbability m)) (fun a b hab => hab)
  · intro q
    rw [classify, List.filter_map]
    have hcomp : ((fun r : CityRow => decide (r.probability = q))
        ∘ cityRow (maxProbability m)) = (fun x : String × ℚ => decide (x.2 = q)) := rfl
    rw [hcomp, filter_sortCities]
  · obtain ⟨h, t, hht, hmax2⟩ := sortCities_head_max m hm
    refine ⟨cityRow (maxProbability m) h, t.map (cityRow (maxProbability m)), ?_, ?_⟩
    · rw [classify, hht, List.map_cons]
    · show h.2 / maxProbability m = 1
      rw [hmax2]
      exact div_self hmax

/-- Claim C2 (witness): the amended theorem applied to the Madrid/Seville
scenario map. -/
theorem classify_sorted_top_bar_witness :
    List.Pairwise (fun a b : CityRow => b.probability ≤ a.probability)
      (classify [("Madrid", (35 : ℚ) / 10000), ("Seville", 68 / 10000)])
    ∧ (∀ q : ℚ, (classify [("Madrid", (35 : ℚ) / 10000), ("Seville", 68 / 10000)]).filter
          (fun r => decide (r.probability = q))
        = (([("Madrid", (35 : ℚ) / 10000), ("Seville", 68 / 10000)]).filter
            (fun x => decide (x.2 = q))).map
          (cityRow (maxProbability [("Madrid", (35 : ℚ) / 10000), ("Seville", 68 / 10000)])))
    ∧ ∃ r t, classify [("Madrid", (35 : ℚ) / 10000), ("Seville", 68 / 10000)] = r :: t
        ∧ r.barFraction = 1 :=
  classify_sorted_top_bar [("Madrid", 35 / 10000), ("Seville", 68 / 10000)]
    (by simp) (by norm_num [maxProbability, max_def])

lemma riskTier_eq_higher {p : ℚ} : riskTier p = RiskTier.higher ↔ 6 / 1000 < p := by
  unfold riskTier
  split_ifs with h1 h2
  · exact iff_of_true rfl h1
  · exact iff_of_false (by decide) h1
  · exact iff_of_false (by decide) h1

lemma riskTier_eq_moderate {p : ℚ} :
    riskTier p = RiskTier.moderate ↔ (4 / 1000 < p ∧ p ≤ 6 / 1000) := by
  unfold riskTier
  split_ifs with h1 h2
  · exact iff_of_false (by decide) (fun h => absurd h1 (not_lt.mpr h.2))
  · exact iff_of_true rfl ⟨h2, not_lt.mp h1⟩
  · exact iff_of_false (by decide) (fun h => h2 h.1)

lemma riskTier_eq_lower {p : ℚ} : riskTier p = RiskTier.lower ↔ p ≤ 4 / 1000 := by
  unfold riskTier
  split_ifs with h1 h2
  · refine iff_of_false (by decide) ?_
    intro h
    linarith
  · exact iff_of_false (by decide) (not_le.mpr h2)
  · exact iff_of_true rfl (not_lt.mp h2)

/-- Claim C7: the tier classification satisfies Higher ⟺ p > 0.006,
Moderate ⟺ 0.004 < p ≤ 0.006, Lower ⟺ p ≤ 0.004: every probability gets
exactly one tier, the tiers partition the line without gaps or overlaps,
and the boundaries are monotonic (Lower below Moderate below Higher). -/
theorem riskTier_partition (p : ℚ) :
    (riskTier p = RiskTier.higher ↔ 6 / 1000 < p)
    ∧ (riskTier p = RiskTier.moderate ↔ (4 / 1000 < p ∧ p ≤ 6 / 1000))
    ∧ (riskTier p = RiskTier.lower ↔ p ≤ 4 / 1000)
    ∧ (riskTier p = RiskTier.lower ∨ riskTier p = RiskTier.moderate
        ∨ riskTier p = RiskTier.higher) := by
  refine ⟨riskTier_eq_higher, riskTier_eq_moderate, riskTier_eq_lower, ?_⟩
  unfold riskTier
  split_ifs <;> simp

/-- Claim C10: the instability warning and the amber map pin are governed
by the separate fixed threshold 0.005, strictly inside the Moderate tier:
each shows exactly when p > 0.005; a city with 0.004 < p ≤ 0.005 is
labeled Moderate Risk yet gets the emerald (low-risk) pin and no warning;
every Higher-tier city (p > 0.006) gets both. -/
theorem warning_pin_thresholds (p : ℚ) :
    (instabilityWarning p = true ↔ 5 / 1000 < p)
    ∧ (pinColor p = PinColor.amber ↔ 5 / 1000 < p)
    ∧ ((4 / 1000 < p ∧ p ≤ 5 / 1000)
        ↔ (riskTier p = RiskTier.moderate ∧ instabilityWarning p = false
            ∧ pinColor p = PinColor.emerald))
    ∧ (6 / 1000 < p
        ↔ (riskTier p = RiskTier.higher ∧ instabilityWarning p = true
            ∧ pinColor p = PinColor.amber)) := by
  refine ⟨by simp [instabilityWarning], ?_, ?_, ?_⟩
  · by_cases h : 5 / 1000 < p <;> simp [pinColor, h]
  · constructor
    · rintro ⟨h4, h5⟩
      have h6 : p ≤ 6 / 1000 := by linarith
      have h5b : ¬ (5 / 1000 < p) := not_lt.mpr h5
      exact ⟨riskTier_eq_moderate.mpr ⟨h4, h6⟩,
        by simp [instabilityWarning, h5b], by simp [pinColor, h5b]⟩
    · rintro ⟨h4, h5, _⟩
      have hw : ¬ (5 / 1000 < p) := by
        intro hgt
        simp [instabilityWarning, hgt] at h5
      exact ⟨(riskTier_eq_moderate.mp h4).1, not_lt.mp hw⟩
  · constructor
    · intro h4
      have h5 : 5 / 1000 < p := by linarith
      exact ⟨riskTier_eq_higher.mpr h4,
        by simp [instabilityWarning, h5], by simp [pinColor, h5]⟩
    · rintro ⟨h4, _, _⟩
      exact riskTier_eq_higher.mp h4

/-! ### Prediction orchestrator fallback paths -/

/-- Outcome of the external HTTP call when it fails: a network/transport
error, a non-2xx response status, or the 10-second timeout firing
(`AbortController` in `getCityPredictions`). -/
inductive ApiFailure
  | networkError
  | badStatus (status : Nat)
  | timeout
deriving DecidableEq

/-- TS interface `CityPredictionsResponse`: `{ predictions: Record<string, number> }`. -/
structure CityPredictionsResponse where
  predictions : List (String × ℚ)
deriving DecidableEq

/-- The literal static Spain dataset of the `getCityPredictions` catch block. -/
def spainFallbackResponse : CityPredictionsResponse :=
  { predictions :=
      [ ("Madrid", 0.0034748444184734394)
      , ("Barcelona", 0.004376579690223345)
      , ("Valencia", 0.0033437952261111837)
      , ("Seville", 0.006782503484561028)
      , ("Zaragoza", 0.003636487134878024)
      , ("Málaga", 0.0034847247971792213)
      , ("Murcia", 0.0035266592038738416)
      , ("Palma", 0.0034320998997824427)
      , ("Las Palmas", 0.003947999745671289)
      , ("Bilbao", 0.0035445528532564606)
      , ("Alicante", 0.004058265132688682)
      , ("Córdoba", 0.0063832946594888735)
      , ("Valladolid", 0.003503675406237349)
      , ("Vigo", 0.003947999745671289)
      , ("Gijón", 0.0035618539082385567) ] }

/-- The literal static United States dataset of the catch block. -/
def unitedStatesFallbackResponse : CityPredictionsResponse :=
  { predictions :=
      [ ("New York", 0.0045)
      , ("Los Angeles", 0.0052)
      , ("Chicago", 0.0038)
      , ("Houston", 0.0062)
      , ("Phoenix", 0.0031)
      , ("Philadelphia", 0.0044)
      , ("San Antonio", 0.0037)
      , ("San Diego", 0.0028)
      , ("Dallas", 0.0057)
      , ("San Jose", 0.0033) ] }

/-- The literal static United Kingdom dataset of the catch block. -/
def unitedKingdomFallbackResponse : CityPredictionsResponse :=
  { predictions :=
      [ ("London", 0.0039)
      , ("Birmingham", 0.0044)
      , ("Manchester", 0.0049)
      , ("Glasgow", 0.0051)
      , ("Liverpool", 0.0046)
      , ("Bristol", 0.0037)
      , ("Edinburgh", 0.0042)
      , ("Leeds", 0.0045)
      , ("Sheffield", 0.0038)
      , ("Newcastle", 0.0047) ] }

/-- The per-country hardcoded fallback of the `getCityPredictions` catch
block: exact string match on "Spain", "UnitedStates", "UnitedKingdom",
otherwise an empty predictions object. -/
def cityPredictionsFallback (country : String) : CityPredictionsResponse :=
  if country = "Spain" then spainFallbackResponse
  else if country = "UnitedStates" then unitedStatesFallbackResponse
  else if country = "UnitedKingdom" then unitedKingdomFallbackResponse
  else { predictions := [] }

/-- Shallow embedding of `getCityPredictions` (predictionService.ts): the
external call outcome is passed as a parameter; the function is total — on
success the response is returned as-is, and every failure is absorbed by
the fallback table, so no error escapes to the caller. -/
def getCityPredictions (country : String)
    (external : Except ApiFailure CityPredictionsResponse) : CityPredictionsResponse :=
  match external with
  | .ok r => r
  | .error _ => cityPredictionsFallback country

/-- Claim C8: when the external city-prediction call fails (network error,
non-2xx status, or the 10-second timeout), `getCityPredictions` does not
throw: it returns the hardcoded static dataset when the country is exactly
"Spain", "UnitedStates" or "UnitedKingdom", and otherwise a result with an
empty predictions map. -/
theorem getCityPredictions_failure_fallback (country : String) (e : ApiFailure) :
    (country = "Spain" →
      getCityPredictions country (Except.error e) = spainFallbackResponse)
    ∧ (country = "UnitedStates" →
      getCityPredictions country (Except.error e) = unitedStatesFallbackResponse)
    ∧ (country = "UnitedKingdom" →
      getCityPredictions country (Except.error e) = unitedKingdomFallbackResponse)
    ∧ (country ≠ "Spain" → country ≠ "UnitedStates" → country ≠ "UnitedKingdom" →
      (getCityPredictions country (Except.error e)).predictions = []) := by
  refine ⟨?_, ?_, ?_, ?_⟩
  · intro h
    simp [getCityPredictions, cityPredictionsFallback, h]
  · intro h
    simp [getCityPredictions, cityPredictionsFallback, h]
  · intro h
    simp [getCityPredictions, cityPredictionsFallback, h]
  · intro h1 h2 h3
    simp [getCityPredictions, cityPredictionsFallback, h1, h2, h3]

/-- Simplified prediction request (TS interface `SimplifiedPredictionRequest`). -/
structure SimplifiedPredictionRequest where
  timestamp : String
  city : String
  country_code : String
  metric_bgp : ℚ
  calc_bgp_mad : ℚ
  calc_avg_mad : ℚ
  region : String
  network_quality : String
  weather_condition : String
deriving DecidableEq

/-- The conversion of a simplified request to a full `PredictionRequest`
performed by the mock path of `getSimplifiedPrediction`. -/
def toFullRequest (values : SimplifiedPredictionRequest) : PredictionRequest :=
  { region := values.region
    latency_ms :=
      if values.network_quality = "good" then 50
      else if values.network_quality = "moderate" then 150 else 300
    packet_loss :=
      if values.network_quality = "good" then 1 / 2
      else if values.network_quality = "moderate" then 2 else 8
    temperature :=
      if values.weather_condition = "normal" then 25
      else if values.weather_condition = "extreme_heat" then 40
      else if values.weather_condition = "extreme_cold" then -5 else 25
    humidity := if values.weather_condition = "rainy" then 95 else 60
    wind_speed := if values.weather_condition = "stormy" then 35 else 5 }

/-- The fixed substitute "average" input built by the error path
(catch block) of `getSimplifiedPrediction`. -/
def fallbackRequest (region : String) : PredictionRequest :=
  { region := region, latency_ms := 150, packet_loss := 2
    temperature := 25, humidity := 60, wind_speed := 5 }

/-- Shallow embedding of the hook function `getSimplifiedPrediction`:
unauthenticated or mock-mode sessions use the mock scorer on the converted
request; authenticated sessions use the external call, and on its failure
the catch block scores the fixed substitute input instead of rethrowing. -/
def getSimplifiedPrediction (values : SimplifiedPredictionRequest)
    (authenticated mockMode : Bool)
    (apiOutcome : Except ApiFailure PredictionResult) (jitter : ℚ) : PredictionResult :=
  if !authenticated || mockMode then
    calculateMockProbability (toFullRequest values) jitter
  else
    match apiOutcome with
    | .ok r => r
    | .error _ => calculateMockProbability (fallbackRequest values.region) jitter

/-- Claim C9: on failure of the external simplified-prediction call, the
error path returns the mock scorer result for the fixed substitute
"average" input {latency 150, packet loss 2, temperature 25, humidity 60,
wind 5}, so the caller always ends with a valid PredictionResult
(probability in [0, 1]) and no failure surfaces as an exception. -/
theorem getSimplifiedPrediction_error_path (values : SimplifiedPredictionRequest)
    (e : ApiFailure) (jitter : ℚ) :
    getSimplifiedPrediction values true false (Except.error e) jitter
      = calculateMockProbability (fallbackRequest values.region) jitter
    ∧ fallbackRequest values.region
      = { region := values.region, latency_ms := 150, packet_loss := 2
          temperature := 25, wind_speed := 5, humidity := 60 }
    ∧ 0 ≤ (getSimplifiedPrediction values true false
        (Except.error e) jitter).downtime_probability
    ∧ (getSimplifiedPrediction values true false
        (Except.error e) jitter).downtime_probability ≤ 1 :=
  ⟨rfl, rfl, round2_nonneg (clamp01_nonneg _), round2_le_one (clamp01_le_one _)⟩

end Sentinel
